import Mathlib

/-! Shallow embedding of the MathAiAgent answer-generation and feedback-improvement
pipeline (src/backend/main.py and src/backend/dspyfeedback.py).

External capabilities (OpenAI completions, DSPy calls, Qdrant vector search,
web search, JSON parsing of completion output) are modelled as explicit inputs:
a call that can raise an exception is an `Except String α` argument, where
`Except.error e` stands for the Python exception with message `e`.
The sqlite tables are modelled as explicit list-valued state that the
operations thread through.  Python strings are Lean `String`s; the Python
string primitives used by the code (`lower`, `strip`, `split('\n')`,
substring membership `in`) are defined below over the character list.
-/

/-- Python `needle` begins `haystack` (helper for substring membership). -/
def startsWithL : List Char → List Char → Bool
  | [], _ => true
  | _ :: _, [] => false
  | a :: as, b :: bs => a == b && startsWithL as bs

/-- Python `needle in haystack` over character lists. -/
def hasSubL (needle : List Char) : List Char → Bool
  | [] => startsWithL needle []
  | c :: rest => startsWithL needle (c :: rest) || hasSubL needle rest

/-- Python substring membership `needle in haystack` on strings. -/
def containsSub (needle haystack : String) : Bool :=
  hasSubL needle.data haystack.data

/-- Python `str.lower()` (character-wise lowering; ASCII, as used by the code). -/
def lowerStr (s : String) : String :=
  ⟨s.data.map Char.toLower⟩

/-- Python `str.strip()`: drop leading and trailing whitespace. -/
def stripL (l : List Char) : List Char :=
  ((l.dropWhile Char.isWhitespace).reverse.dropWhile Char.isWhitespace).reverse

/-- Python `str.strip()` on strings. -/
def stripStr (s : String) : String :=
  ⟨stripL s.data⟩

/-- Python `str.split('\n')` over character lists. -/
def splitNlL : List Char → List (List Char)
  | [] => [[]]
  | c :: rest =>
    let r := splitNlL rest
    if c == '\n' then [] :: r
    else
      match r with
      | [] => [[c]]
      | h :: t => (c :: h) :: t

/-- Python `str.split('\n')` on strings. -/
def splitLines (s : String) : List String :=
  (splitNlL s.data).map (fun l => ⟨l⟩)

/-! Guardrails (main.py lines 66-88) -/

/-- Constant `MATH_KEYWORDS` from main.py (the duplicate `"sum"` of the source is kept). -/
def MATH_KEYWORDS : List String :=
  ["solve", "integrate", "differentiate", "derivative", "limit", "roots",
   "equation", "matrix", "theorem", "prove", "evaluate", "simplify",
   "laplace", "fourier", "sum", "product", "geometry", "trigonometry",
   "probability", "stats", "statistical", "integral", "sum", "factorize"]

/-- Function `input_guardrail` from main.py: lowercase the query, admit when it has a
digit character or contains one of the math keywords. -/
def input_guardrail (query : String) : Bool :=
  let q := lowerStr query
  if q.data.any Char.isDigit then true
  else if MATH_KEYWORDS.any (fun kw => containsSub kw q) then true
  else false

/-- The fixed "could not be answered" message of `output_guardrail_text`. -/
def UNANSWERABLE_MSG : String :=
  "⏳ This question could not be answered from the knowledge base or web search."

/-- The fixed "mathematics-only" refusal message of `output_guardrail_text`. -/
def MATH_ONLY_MSG : String :=
  "⚠️ This system only returns mathematics-related educational answers."

/-- The banned-topic substring list of `output_guardrail_text`. -/
def BANNED_TOPICS : List String :=
  ["joke", "love letter", "sex", "romance", "politics"]

/-- Function `output_guardrail_text` from main.py: unanswerable message on empty or
whitespace-only text, refusal message on a banned topic, else the text. -/
def output_guardrail_text (text : String) : String :=
  if text == "" || (stripStr text).data.length == 0 then UNANSWERABLE_MSG
  else if BANNED_TOPICS.any (fun b => containsSub b (lowerStr text)) then MATH_ONLY_MSG
  else text

/-! Solution-text parsing (dspyfeedback.py lines 209-242) -/

/-- The step-cue words of `_parse_solution_steps`. -/
def STEP_INDICATORS : List String :=
  ["step", "first", "next", "then", "finally"]

/-- The loop body of `_parse_solution_steps`: thread `(steps, current_step)`
through the stripped, non-empty lines. -/
def parseStepsLoop : List String → List String → String → List String × String
  | [], steps, current => (steps, current)
  | line :: rest, steps, current =>
    let l := stripStr line
    if l == "" then parseStepsLoop rest steps current
    else if STEP_INDICATORS.any (fun ind => containsSub ind (lowerStr l)) then
      if current == "" then parseStepsLoop rest steps l
      else parseStepsLoop rest (steps ++ [stripStr current]) l
    else parseStepsLoop rest steps (current ++ " " ++ l)

/-- Method `_parse_solution_steps` of `EnhancedMathSolver` from dspyfeedback.py. -/
def parse_solution_steps (solution_text : String) : List String :=
  let r := parseStepsLoop (splitLines solution_text) [] ""
  let steps := if r.2 == "" then r.1 else r.1 ++ [stripStr r.2]
  if steps == [] then [solution_text] else steps

/-- The final-answer cue substrings of `_extract_final_answer`. -/
def ANSWER_PATTERNS : List String :=
  ["final answer", "answer:", "result:", "therefore"]

/-- Method `_extract_final_answer` of `EnhancedMathSolver` from dspyfeedback.py. -/
def extract_final_answer (solution_text : String) : String :=
  let lines := splitLines solution_text
  match lines.find? (fun line => ANSWER_PATTERNS.any (fun p => containsSub p (lowerStr line))) with
  | some line => stripStr line
  | none =>
    let meaningful_lines := (lines.map stripStr).filter (fun l => l != "")
    match meaningful_lines.getLast? with
    | some l => l
    | none => "Answer not clearly stated"

/-! Answer generation (main.py lines 93-156, dspyfeedback.py lines 71-167) -/

/-- Outcome of Python `json.loads` on the completion text followed by the
`payload.get` extractions: either the two-field payload, or any exception. -/
inductive JsonParse where
  | ok (steps : List String) (finalAnswer : String)
  | fail
deriving DecidableEq

/-- The dict returned by the generation helpers in main.py
(keys `steps`, `final_answer`, `enhanced`, `method`, `confidence`). -/
structure GenResult where
  steps : List String
  final_answer : String
  enhanced : Bool
  method : String
  confidence : ℚ
deriving DecidableEq

/-- Function `generate_step_by_step_standard` from main.py.  `completion` is the outcome
of the OpenAI chat call (`Except.error e` when it raises with message `e`,
`Except.ok t` when it returns text `t`); `parseJson` is the outcome of
`json.loads` plus payload extraction on the stripped text. -/
def generate_step_by_step_standard (completion : Except String String)
    (parseJson : String → JsonParse) : GenResult :=
  match completion with
  | Except.error e =>
    { steps := ["Error connecting to AI model. Please check your API configuration."]
      final_answer := "Service temporarily unavailable: " ++ e
      enhanced := false
      method := "error"
      confidence := 0 }
  | Except.ok t =>
    let text := stripStr t
    match parseJson text with
    | JsonParse.ok steps final =>
      { steps := steps.map stripStr
        final_answer := stripStr final
        enhanced := false
        method := "standard"
        confidence := 0.6 }
    | JsonParse.fail =>
      let safe_text := output_guardrail_text text
      { steps := [safe_text]
        final_answer := safe_text
        enhanced := false
        method := "standard_fallback"
        confidence := 0.4 }

/-- The dict returned by the solver methods in dspyfeedback.py
(keys `steps`, `final_answer`, `raw_solution`, `method`, `confidence`). -/
structure SolveResult where
  steps : List String
  final_answer : String
  raw_solution : String
  method : String
  confidence : ℚ
deriving DecidableEq

/-- Method `_solve_with_openai` of `EnhancedMathSolver` from dspyfeedback.py.
`openai_call` is the outcome of the OpenAI chat call. -/
def solve_with_openai (openai_call : Except String String) : SolveResult :=
  match openai_call with
  | Except.ok t =>
    let solution_text := stripStr t
    { steps := parse_solution_steps solution_text
      final_answer := extract_final_answer solution_text
      raw_solution := solution_text
      method := "openai_fallback"
      confidence := 0.7 }
  | Except.error e =>
    { steps := ["Error: " ++ e]
      final_answer := "Could not generate solution"
      raw_solution := ""
      method := "error"
      confidence := 0 }

/-- Method `solve_with_dspy` of `EnhancedMathSolver` from dspyfeedback.py.  `dspy_call` is
the outcome of the DSPy chain-of-thought call (`Except.ok` carries
`result.solution`). -/
def solve_with_dspy (dspy_available : Bool) (dspy_call : Except String String)
    (openai_call : Except String String) : SolveResult :=
  if dspy_available then
    match dspy_call with
    | Except.ok solution_text =>
      { steps := parse_solution_steps solution_text
        final_answer := extract_final_answer solution_text
        raw_solution := solution_text
        method := "dspy"
        confidence := 0.8 }
    | Except.error _ => solve_with_openai openai_call
  else solve_with_openai openai_call

/-- Function `solve_with_enhanced_system` from dspyfeedback.py: reformat the solver
result for the main API (`enhanced := true`). -/
def solve_with_enhanced_system (dspy_available : Bool)
    (dspy_call openai_call : Except String String) : GenResult :=
  let result := solve_with_dspy dspy_available dspy_call openai_call
  { steps := result.steps
    final_answer := result.final_answer
    confidence := result.confidence
    enhanced := true
    method := result.method }

/-- Function `generate_step_by_step_enhanced` from main.py.  `enhanced_call` is the
outcome of the `solve_with_enhanced_system` call, `Except.error` when the
primary (enhanced) strategy raises; the `except` branch of the source calls
`generate_step_by_step_standard` instead of re-raising. -/
def generate_step_by_step_enhanced (dspy_integration_available has_solver : Bool)
    (enhanced_call : Except String GenResult)
    (completion : Except String String) (parseJson : String → JsonParse) : GenResult :=
  if !(dspy_integration_available && has_solver) then
    generate_step_by_step_standard completion parseJson
  else
    match enhanced_call with
    | Except.ok result => result
    | Except.error _ => generate_step_by_step_standard completion parseJson

/-! Retrieval routing and the /ask endpoint (main.py lines 161-245) -/

/-- The payload of a Qdrant search hit, keys read via `payload.get`. -/
structure KbPayload where
  source : Option String
  problem : Option String
  solution : Option String
deriving DecidableEq

/-- A Qdrant search hit: a `score` and an optional payload
(`getattr(..., "payload", {}) or {}` treats a missing payload as `{}`). -/
structure KbResult where
  score : ℚ
  payload : Option KbPayload
deriving DecidableEq

/-- Constant `KB_MATCH_THRESHOLD` from main.py. -/
def KB_MATCH_THRESHOLD : ℚ := 0.4

/-- The source/context selection of `ask_question` (main.py lines 179-194):
knowledge base when the top score reaches the threshold, web otherwise. -/
def ask_route (kb_results : List KbResult) : String × String :=
  match kb_results with
  | [] => ("web", "")
  | r :: _ =>
    if r.score ≥ KB_MATCH_THRESHOLD then
      let payload := r.payload.getD { source := none, problem := none, solution := none }
      (payload.source.getD "Knowledge Base",
       if payload.problem.getD "" != "" then payload.problem.getD "" else payload.solution.getD "")
    else ("web", "")

/-- The generation choice of `ask_question` (main.py lines 206-212). -/
def ask_generation (dspy_integration_available has_solver : Bool)
    (enhanced_call : Except String GenResult)
    (completion : Except String String) (parseJson : String → JsonParse) : GenResult :=
  if dspy_integration_available && has_solver then
    generate_step_by_step_enhanced dspy_integration_available has_solver enhanced_call completion parseJson
  else
    generate_step_by_step_standard completion parseJson

/-- The `AnswerOut` response model of main.py. -/
structure AnswerOut where
  question : String
  source : String
  steps : List String
  final_answer : String
  enhanced : Bool
  method : String
  confidence : ℚ
deriving DecidableEq

/-- Result of the /ask endpoint: a 400 rejection or an answer body. -/
inductive AskResponse where
  | badRequest (detail : String)
  | answer (a : AnswerOut)
deriving DecidableEq

/-- Function `ask_question` (the /ask endpoint) from main.py.  External effects as inputs: `kb_call` is the
Qdrant search, `web_call` the web-search context, `enhanced_call` /
`completion` / `parseJson` feed the generation attempt, `gen_exc` is an
exception escaping the generation block (the `except` at line 220), and
`completion2` / `parseJson2` feed the fresh
`generate_step_by_step_standard(question, context="")` call of that handler. -/
def ask_question (question_raw : String)
    (kb_call : Except String (List KbResult))
    (web_call : Except String String)
    (dspy_integration_available has_solver : Bool)
    (enhanced_call : Except String GenResult)
    (completion : Except String String) (parseJson : String → JsonParse)
    (gen_exc : Option String)
    (completion2 : Except String String) (parseJson2 : String → JsonParse) :
    AskResponse :=
  let question := stripStr question_raw
  if !input_guardrail question then
    AskResponse.badRequest "Only mathematics-related queries are allowed. Try phrasing the math problem more explicitly."
  else
    let kb_results := match kb_call with
      | Except.ok rs => rs
      | Except.error _ => []
    let rc := ask_route kb_results
    let src := rc.1
    let _context := if src == "web" then
        (match web_call with
         | Except.ok c => c
         | Except.error _ => "")
      else rc.2
    match gen_exc with
    | some _ =>
      let gen := generate_step_by_step_standard completion2 parseJson2
      AskResponse.answer
        { question := question
          source := "fallback"
          steps := gen.steps
          final_answer := if gen.final_answer != "" then gen.final_answer
            else "Unable to generate a complete solution. Please try rephrasing your question."
          enhanced := false
          method := "fallback"
          confidence := 0.3 }
    | none =>
      let gen := ask_generation dspy_integration_available has_solver enhanced_call completion parseJson
      AskResponse.answer
        { question := question
          source := src
          steps := gen.steps.map output_guardrail_text
          final_answer := output_guardrail_text gen.final_answer
          enhanced := gen.enhanced
          method := gen.method
          confidence := gen.confidence }

/-- Source label of an /ask response (`none` for a 400 rejection). -/
def answerSource : AskResponse → Option String
  | AskResponse.badRequest _ => none
  | AskResponse.answer a => some a.source

/-- Steps of an /ask response (`[]` for a 400 rejection). -/
def answerSteps : AskResponse → List String
  | AskResponse.badRequest _ => []
  | AskResponse.answer a => a.steps

/-- Final answer of an /ask response (`""` for a 400 rejection). -/
def answerFinal : AskResponse → String
  | AskResponse.badRequest _ => ""
  | AskResponse.answer a => a.final_answer

/-! Feedback improvement (dspyfeedback.py lines 93-305, main.py lines 274-326) -/

/-- The dict returned by the improvement methods of dspyfeedback.py.
`raw_solution` is `none` where the source dict omits the key
(the error branch of `_improve_with_openai`). -/
structure ImproveResult where
  steps : List String
  final_answer : String
  raw_solution : Option String
  method : String
  improvement_applied : Bool
deriving DecidableEq

/-- One entry of `EnhancedMathSolver.feedback_examples`. -/
structure FeedbackExample where
  question : String
  original : String
  feedback : String
  improved : String
deriving DecidableEq

/-- Method `_improve_with_openai` of `EnhancedMathSolver` from dspyfeedback.py. -/
def improve_with_openai (openai_call : Except String String) : ImproveResult :=
  match openai_call with
  | Except.ok t =>
    let improved_text := stripStr t
    { steps := parse_solution_steps improved_text
      final_answer := extract_final_answer improved_text
      raw_solution := some improved_text
      method := "openai_improved"
      improvement_applied := true }
  | Except.error e =>
    { steps := ["Error in improvement: " ++ e]
      final_answer := "Could not improve solution"
      raw_solution := none
      method := "error"
      improvement_applied := false }

/-- Method `improve_with_feedback` of `EnhancedMathSolver` from dspyfeedback.py.
`dspy_call` is the outcome of the DSPy improver call (`Except.ok` carries
`result.improved_solution`); the second component is the feedback example
appended to the in-memory training buffer on DSPy success. -/
def improve_with_feedback (dspy_available : Bool)
    (dspy_call openai_call : Except String String)
    (question original_solution feedback : String) :
    ImproveResult × Option FeedbackExample :=
  if dspy_available then
    match dspy_call with
    | Except.ok improved_text =>
      ({ steps := parse_solution_steps improved_text
         final_answer := extract_final_answer improved_text
         raw_solution := some improved_text
         method := "dspy_improved"
         improvement_applied := true },
       some { question := question, original := original_solution,
              feedback := feedback, improved := improved_text })
    | Except.error _ => (improve_with_openai openai_call, none)
  else (improve_with_openai openai_call, none)

/-- One row of the `dspy_feedback` sqlite table (the improvement-events table). -/
structure DspyFeedbackRow where
  question : String
  original_solution : String
  feedback_text : String
  rating : Int
  improved_solution : String
  method_used : String
  improvement_applied : Bool
deriving DecidableEq

/-- Method `process_feedback` of `SimpleFeedbackSystem` from dspyfeedback.py: improve via
the solver, insert one row into the improvement-events table (missing dict
keys default via `.get`), return the improvement dict.  Returns the dict, the
new table state, and the training-buffer append. -/
def process_feedback (db : List DspyFeedbackRow)
    (dspy_available : Bool) (dspy_call openai_call : Except String String)
    (question original_solution feedback_text : String) (rating : Int) :
    ImproveResult × List DspyFeedbackRow × Option FeedbackExample :=
  let iw := improve_with_feedback dspy_available dspy_call openai_call
    question original_solution feedback_text
  let improved := iw.1
  let row : DspyFeedbackRow :=
    { question := question
      original_solution := original_solution
      feedback_text := feedback_text
      rating := rating
      improved_solution := improved.raw_solution.getD ""
      method_used := improved.method
      improvement_applied := improved.improvement_applied }
  (improved, db ++ [row], iw.2)

/-- The `FeedbackIn` request model of main.py. -/
structure FeedbackIn where
  question : String
  answer : String
  rating : Option Int
  comment : Option String
deriving DecidableEq

/-- One row of the raw `feedback` sqlite table of main.py. -/
structure FeedbackRow where
  question : String
  answer : String
  rating : Option Int
  comment : Option String
deriving DecidableEq

/-- The `EnhancedFeedbackOut` response model of main.py. -/
structure EnhancedFeedbackOut where
  status : String
  enhanced : Bool
  improvement_applied : Bool
  method_used : String
  improved_steps : Option (List String)
deriving DecidableEq

/-- Python truthiness of the optional rating (`f.rating or ...`). -/
def truthyInt : Option Int → Bool
  | none => false
  | some r => r != 0

/-- Python truthiness of the optional comment (`f.comment or ...`). -/
def truthyStr : Option String → Bool
  | none => false
  | some c => c != ""

/-- Python `f"Rating: {f.rating}/5"` rendering of the optional rating. -/
def ratingText : Option Int → String
  | none => "None"
  | some r => toString r

/-- Function `receive_enhanced_feedback` (the /feedback endpoint) from main.py: always
insert the raw-feedback row; when DSPy is available and the feedback is truthy
(`f.rating or f.comment`), run `process_feedback` and answer with its result,
else answer the standard response.  Returns the response body, the raw
feedback table, and the improvement-events table. -/
def receive_enhanced_feedback (f : FeedbackIn)
    (dspy_integration_available has_solver : Bool)
    (dspy_available : Bool) (dspy_call openai_call : Except String String)
    (feedback_db : List FeedbackRow) (dspy_db : List DspyFeedbackRow) :
    EnhancedFeedbackOut × List FeedbackRow × List DspyFeedbackRow :=
  let feedback_db2 := feedback_db ++
    [{ question := f.question, answer := f.answer, rating := f.rating, comment := f.comment }]
  if dspy_integration_available && has_solver && (truthyInt f.rating || truthyStr f.comment) then
    let feedback_text := match f.comment with
      | some c => if c != "" then c else "Rating: " ++ ratingText f.rating ++ "/5"
      | none => "Rating: " ++ ratingText f.rating ++ "/5"
    let rating := match f.rating with
      | some r => if r != 0 then r else 3
      | none => 3
    let pr := process_feedback dspy_db dspy_available dspy_call openai_call
      f.question f.answer feedback_text rating
    ({ status := "ok"
       enhanced := true
       improvement_applied := pr.1.improvement_applied
       method_used := pr.1.method
       improved_steps := some pr.1.steps },
     feedback_db2, pr.2.1)
  else
    ({ status := "ok"
       enhanced := dspy_integration_available
       improvement_applied := false
       method_used := "standard"
       improved_steps := none },
     feedback_db2, dspy_db)

/-! Helper lemmas -/

/-- UInt32 order transfers to `toNat`. -/
theorem uint32_le_iff_toNat (a b : UInt32) : (a ≤ b) ↔ a.toNat ≤ b.toNat := by
  rw [UInt32.le_def]
  exact Iff.rfl

/-- Lowercasing a character does not change whether it is a digit. -/
theorem isDigit_toLower (c : Char) : (Char.toLower c).isDigit = c.isDigit := by
  unfold Char.toLower
  by_cases h : c.toNat ≥ 65 ∧ c.toNat ≤ 90
  · simp only [if_pos h]
    have hv : (c.toNat + 32).isValidChar := by
      left
      have := h.2
      simp [Char.toNat] at *
      omega
    have ht : (Char.ofNat (c.toNat + 32)).toNat = c.toNat + 32 := by
      rw [Char.ofNat, dif_pos hv]
      rfl
    have hd1 : (Char.ofNat (c.toNat + 32)).isDigit = false := by
      rw [Char.isDigit]
      have hn : ¬ ((Char.ofNat (c.toNat + 32)).val ≤ (57 : UInt32)) := by
        rw [uint32_le_iff_toNat]
        have hval : (Char.ofNat (c.toNat + 32)).val.toNat = c.toNat + 32 := ht
        rw [hval]
        have h57 : (57 : UInt32).toNat = 57 := rfl
        rw [h57]
        have := h.1
        simp [Char.toNat] at *
        omega
      simp [hn]
    have hd2 : c.isDigit = false := by
      rw [Char.isDigit]
      have hn : ¬ (c.val ≤ (57 : UInt32)) := by
        rw [uint32_le_iff_toNat]
        have h57 : (57 : UInt32).toNat = 57 := rfl
        rw [h57]
        have := h.1
        simp [Char.toNat] at *
        omega
      simp [hn]
    rw [hd1, hd2]
  · simp only [if_neg h]

/-- Digit search commutes with character-wise lowering. -/
theorem any_isDigit_map_toLower (l : List Char) :
    (l.map Char.toLower).any Char.isDigit = l.any Char.isDigit := by
  induction l with
  | nil => rfl
  | cons c t ih => simp [List.any_cons, ih, isDigit_toLower]

/-- `output_guardrail_text` returns one of the two fixed messages or its input. -/
theorem output_guardrail_cases (text : String) :
    output_guardrail_text text = UNANSWERABLE_MSG
    ∨ output_guardrail_text text = MATH_ONLY_MSG
    ∨ output_guardrail_text text = text := by
  unfold output_guardrail_text
  by_cases h1 : ((text == "") || ((stripStr text).data.length == 0)) = true
  · rw [if_pos h1]
    left
    rfl
  · rw [if_neg h1]
    by_cases h2 : (BANNED_TOPICS.any fun b => containsSub b (lowerStr text)) = true
    · rw [if_pos h2]
      right
      left
      rfl
    · rw [if_neg h2]
      right
      right
      rfl

/-- The two fixed guardrail messages are themselves fixed by the guardrail. -/
theorem output_guardrail_fixed_msgs :
    output_guardrail_text UNANSWERABLE_MSG = UNANSWERABLE_MSG
    ∧ output_guardrail_text MATH_ONLY_MSG = MATH_ONLY_MSG := by
  constructor <;> decide

/-- C4: `input_guardrail` admits a question iff it contains a digit character
or contains a math-vocabulary keyword case-insensitively. -/
theorem c4_input_guardrail_iff (query : String) :
    input_guardrail query = true ↔
      ((∃ c ∈ query.data, c.isDigit = true)
        ∨ ∃ kw ∈ MATH_KEYWORDS, containsSub kw (lowerStr query) = true) := by
  unfold input_guardrail
  have hdig : ((lowerStr query).data.any Char.isDigit) = (query.data.any Char.isDigit) := by
    have h : (lowerStr query).data = query.data.map Char.toLower := rfl
    rw [h, any_isDigit_map_toLower]
  by_cases h1 : ((lowerStr query).data.any Char.isDigit) = true
  · rw [if_pos h1]
    simp only [true_iff]
    left
    rw [hdig] at h1
    exact List.any_eq_true.mp h1
  · rw [if_neg h1]
    by_cases h2 : (MATH_KEYWORDS.any fun kw => containsSub kw (lowerStr query)) = true
    · rw [if_pos h2]
      simp only [true_iff]
      right
      exact List.any_eq_true.mp h2
    · rw [if_neg h2]
      constructor
      · intro h
        exact absurd h (by decide)
      · rintro (hd | hk)
        · exact absurd (by rw [hdig]; exact List.any_eq_true.mpr hd) h1
        · exact absurd (List.any_eq_true.mpr hk) h2

/-- C5: `output_guardrail_text` (sanitize) returns the fixed unanswerable
message on empty or whitespace-only text, the fixed mathematics-only refusal
message when the text contains a banned-topic substring case-insensitively,
and otherwise returns the text unchanged. -/
theorem c5_sanitize_cases (text : String) :
    (stripStr text = "" → output_guardrail_text text = UNANSWERABLE_MSG)
    ∧ (stripStr text ≠ "" →
        ((BANNED_TOPICS.any fun b => containsSub b (lowerStr text)) = true →
          output_guardrail_text text = MATH_ONLY_MSG)
        ∧ ((BANNED_TOPICS.any fun b => containsSub b (lowerStr text)) = false →
          output_guardrail_text text = text)) := by
  unfold output_guardrail_text
  constructor
  · intro hs
    have h0 : ((stripStr text).data.length == 0) = true := by
      rw [hs]
      rfl
    rw [h0, Bool.or_true, if_pos rfl]
  · intro hs
    have hne : ¬ (((text == "") || ((stripStr text).data.length == 0)) = true) := by
      simp only [Bool.or_eq_true, beq_iff_eq]
      rintro (h | h)
      · exact hs (by rw [h]; rfl)
      · exact hs (String.ext (by rw [List.length_eq_zero.mp h]))
    rw [if_neg hne]
    constructor
    · intro hb
      rw [if_pos hb]
    · intro hb
      rw [if_neg (by simp [hb])]

/-- C9: sanitize is idempotent. -/
theorem c9_sanitize_idempotent (x : String) :
    output_guardrail_text (output_guardrail_text x) = output_guardrail_text x := by
  rcases output_guardrail_cases x with h | h | h
  · rw [h]
    exact output_guardrail_fixed_msgs.1
  · rw [h]
    exact output_guardrail_fixed_msgs.2
  · rw [h]
    exact h

/-- C8: the step parser on the three-line example yields exactly two steps and
the final-answer extraction returns the final-answer line verbatim. -/
theorem c8_parser_example :
    parse_solution_steps "Step 1: do X\nStep 2: do Y\nFinal Answer: Z"
      = ["Step 1: do X", "Step 2: do Y Final Answer: Z"]
    ∧ (parse_solution_steps "Step 1: do X\nStep 2: do Y\nFinal Answer: Z").length = 2
    ∧ extract_final_answer "Step 1: do X\nStep 2: do Y\nFinal Answer: Z" = "Final Answer: Z" := by
  refine ⟨by decide, by decide, by decide⟩

/-- Witness for C5 at the two concrete inputs of the claim. -/
theorem c5_witness :
    output_guardrail_text "" = UNANSWERABLE_MSG
    ∧ output_guardrail_text "   " = UNANSWERABLE_MSG :=
  ⟨(c5_sanitize_cases "").1 (by decide), (c5_sanitize_cases "   ").1 (by decide)⟩

/-- The standard generator only ever reports one of three methods. -/
theorem standard_method_cases (completion : Except String String)
    (parseJson : String → JsonParse) :
    (generate_step_by_step_standard completion parseJson).method = "error"
    ∨ (generate_step_by_step_standard completion parseJson).method = "standard"
    ∨ (generate_step_by_step_standard completion parseJson).method = "standard_fallback" := by
  rcases completion with e | t
  · left
    rfl
  · cases h : parseJson (stripStr t) with
    | ok steps fin =>
      right
      left
      simp [generate_step_by_step_standard, h]
    | fail =>
      right
      right
      simp [generate_step_by_step_standard, h]

/-- C1: when the primary (enhanced) strategy raises, the generator returns the
standard strategy result (no exception propagates: the function is total and
equals the secondary strategy), whose method is one of the standard ones and
never the primary method ("dspy" in the code, "primary" in the spec). -/
theorem c1_enhanced_fallback (avail solver : Bool) (e : String)
    (completion : Except String String) (parseJson : String → JsonParse) :
    generate_step_by_step_enhanced avail solver (Except.error e) completion parseJson
      = generate_step_by_step_standard completion parseJson
    ∧ ((generate_step_by_step_enhanced avail solver (Except.error e) completion parseJson).method = "error"
        ∨ (generate_step_by_step_enhanced avail solver (Except.error e) completion parseJson).method = "standard"
        ∨ (generate_step_by_step_enhanced avail solver (Except.error e) completion parseJson).method = "standard_fallback")
    ∧ (generate_step_by_step_enhanced avail solver (Except.error e) completion parseJson).method ≠ "dspy"
    ∧ (generate_step_by_step_enhanced avail solver (Except.error e) completion parseJson).method ≠ "primary" := by
  have heq : generate_step_by_step_enhanced avail solver (Except.error e) completion parseJson
      = generate_step_by_step_standard completion parseJson := by
    unfold generate_step_by_step_enhanced
    cases avail <;> cases solver <;> simp
  refine ⟨heq, ?_, ?_, ?_⟩
  · rw [heq]
    exact standard_method_cases completion parseJson
  · rw [heq]
    rcases standard_method_cases completion parseJson with h | h | h <;> rw [h] <;> decide
  · rw [heq]
    rcases standard_method_cases completion parseJson with h | h | h <;> rw [h] <;> decide

/-- Counterexample to C3: the standard generator's completion-failure
final answer is not one fixed message — it embeds the exception text, so two
different exceptions produce two different final answers. -/
theorem c3_counterexample :
    ¬ ∃ m : String, ∀ e : String,
      (generate_step_by_step_standard (Except.error e) (fun _ => JsonParse.fail)).final_answer
        = m := by
  rintro ⟨m, h⟩
  have h1 := (h "A").trans (h "B").symm
  exact absurd h1 (by decide)

/-- C3 amended: on completion failure the standard generator returns
method "error", exactly one step, confidence 0, and a final answer that is the
fixed prefix "Service temporarily unavailable: " followed by the exception
text; the enhanced solver's OpenAI fallback returns method "error", one step
describing the failure, confidence 0, and the fixed final answer
"Could not generate solution". -/
theorem c3_amended (e : String) (parseJson : String → JsonParse) :
    ((generate_step_by_step_standard (Except.error e) parseJson).method = "error"
      ∧ (generate_step_by_step_standard (Except.error e) parseJson).steps.length = 1
      ∧ (generate_step_by_step_standard (Except.error e) parseJson).final_answer
          = "Service temporarily unavailable: " ++ e
      ∧ (generate_step_by_step_standard (Except.error e) parseJson).confidence = 0)
    ∧ ((solve_with_openai (Except.error e)).method = "error"
      ∧ (solve_with_openai (Except.error e)).steps = ["Error: " ++ e]
      ∧ (solve_with_openai (Except.error e)).final_answer = "Could not generate solution"
      ∧ (solve_with_openai (Except.error e)).confidence = 0) :=
  ⟨⟨rfl, rfl, rfl, rfl⟩, ⟨rfl, rfl, rfl, rfl⟩⟩

/-- C7: every `process_feedback` call, success or failure, appends exactly one
row to the improvement-events table, and that row's `method_used` and
`improvement_applied` equal those of the returned improvement dict. -/
theorem c7_one_row_per_improvement (db : List DspyFeedbackRow) (dspy_available : Bool)
    (dspy_call openai_call : Except String String)
    (question original_solution feedback_text : String) (rating : Int) :
    (process_feedback db dspy_available dspy_call openai_call
        question original_solution feedback_text rating).2.1.length = db.length + 1
    ∧ ∃ row : DspyFeedbackRow,
        (process_feedback db dspy_available dspy_call openai_call
            question original_solution feedback_text rating).2.1 = db ++ [row]
        ∧ row.method_used
            = (process_feedback db dspy_available dspy_call openai_call
                question original_solution feedback_text rating).1.method
        ∧ row.improvement_applied
            = (process_feedback db dspy_available dspy_call openai_call
                question original_solution feedback_text rating).1.improvement_applied := by
  constructor
  · simp [process_feedback]
  · exact ⟨_, rfl, rfl, rfl⟩

/-- C10: a /feedback submission with no rating and an absent or empty comment
attempts no improvement: the response is the standard one and only the
raw-feedback row is inserted. -/
theorem c10_no_signal_no_improvement (f : FeedbackIn)
    (dspy_integration_available has_solver dspy_available : Bool)
    (dspy_call openai_call : Except String String)
    (feedback_db : List FeedbackRow) (dspy_db : List DspyFeedbackRow)
    (hr : f.rating = none) (hc : f.comment = none ∨ f.comment = some "") :
    (receive_enhanced_feedback f dspy_integration_available has_solver dspy_available
        dspy_call openai_call feedback_db dspy_db).1.improvement_applied = false
    ∧ (receive_enhanced_feedback f dspy_integration_available has_solver dspy_available
        dspy_call openai_call feedback_db dspy_db).1.method_used = "standard"
    ∧ (receive_enhanced_feedback f dspy_integration_available has_solver dspy_available
        dspy_call openai_call feedback_db dspy_db).1.improved_steps = none
    ∧ (receive_enhanced_feedback f dspy_integration_available has_solver dspy_available
        dspy_call openai_call feedback_db dspy_db).2.1
      = feedback_db ++ [{ question := f.question, answer := f.answer,
                          rating := f.rating, comment := f.comment }]
    ∧ (receive_enhanced_feedback f dspy_integration_available has_solver dspy_available
        dspy_call openai_call feedback_db dspy_db).2.2 = dspy_db := by
  have hcond : (dspy_integration_available && has_solver
      && (truthyInt f.rating || truthyStr f.comment)) = false := by
    rw [hr]
    rcases hc with h | h <;> rw [h] <;> simp [truthyInt, truthyStr]
  unfold receive_enhanced_feedback
  rw [hcond]
  exact ⟨rfl, rfl, rfl, rfl, rfl⟩

/-- Witness for C10: a concrete submission with neither rating nor comment,
with the enhanced solver available. -/
theorem c10_witness :
    (receive_enhanced_feedback ⟨"q", "a", none, none⟩ true true true
        (Except.error "x") (Except.error "x") [] []).1.improvement_applied = false
    ∧ (receive_enhanced_feedback ⟨"q", "a", none, none⟩ true true true
        (Except.error "x") (Except.error "x") [] []).1.method_used = "standard"
    ∧ (receive_enhanced_feedback ⟨"q", "a", none, none⟩ true true true
        (Except.error "x") (Except.error "x") [] []).1.improved_steps = none
    ∧ (receive_enhanced_feedback ⟨"q", "a", none, none⟩ true true true
        (Except.error "x") (Except.error "x") [] []).2.1
      = [{ question := "q", answer := "a", rating := none, comment := none }]
    ∧ (receive_enhanced_feedback ⟨"q", "a", none, none⟩ true true true
        (Except.error "x") (Except.error "x") [] []).2.2 = [] :=
  c10_no_signal_no_improvement ⟨"q", "a", none, none⟩ true true true
    (Except.error "x") (Except.error "x") [] [] rfl (Or.inl rfl)

/-- C2: with at least one knowledge-base result, /ask routes to the knowledge
base exactly when the top score is at least the 0.4 threshold (inclusive
boundary), and to web search exactly when it is below. -/
theorem c2_kb_threshold (question_raw : String) (r : KbResult) (rest : List KbResult)
    (web_call : Except String String) (davail hsolver : Bool)
    (enhanced_call : Except String GenResult)
    (completion : Except String String) (parseJson : String → JsonParse)
    (completion2 : Except String String) (parseJson2 : String → JsonParse)
    (hq : input_guardrail (stripStr question_raw) = true)
    (hp : r.payload = none) :
    (answerSource (ask_question question_raw (Except.ok (r :: rest)) web_call davail hsolver
        enhanced_call completion parseJson none completion2 parseJson2) = some "Knowledge Base"
      ↔ (0.4 : ℚ) ≤ r.score)
    ∧ (answerSource (ask_question question_raw (Except.ok (r :: rest)) web_call davail hsolver
        enhanced_call completion parseJson none completion2 parseJson2) = some "web"
      ↔ r.score < (0.4 : ℚ)) := by
  simp only [ask_question, hq, Bool.not_true, Bool.false_eq_true, if_false]
  by_cases hsc : r.score ≥ KB_MATCH_THRESHOLD
  · simp only [ask_route, hp, if_pos hsc, Option.getD, answerSource]
    constructor
    · constructor
      · intro _
        exact hsc
      · intro _
        exact trivial
    · constructor
      · intro h
        exact absurd h (by decide)
      · intro h
        exact absurd hsc (not_le.mpr h)
  · simp only [ask_route, hp, if_neg hsc, answerSource]
    constructor
    · constructor
      · intro h
        exact absurd h (by decide)
      · intro h
        exact absurd h hsc
    · constructor
      · intro _
        exact lt_of_not_ge hsc
      · intro _
        exact trivial

/-- Witness for C2 at the boundary scores 0.4 (knowledge base) and
0.399999 (web). -/
theorem c2_witness :
    answerSource (ask_question "solve 1" (Except.ok [{ score := 0.4, payload := none }])
        (Except.ok "") true true (Except.error "p") (Except.error "c") (fun _ => JsonParse.fail)
        none (Except.error "c") (fun _ => JsonParse.fail)) = some "Knowledge Base"
    ∧ answerSource (ask_question "solve 1" (Except.ok [{ score := 0.399999, payload := none }])
        (Except.ok "") true true (Except.error "p") (Except.error "c") (fun _ => JsonParse.fail)
        none (Except.error "c") (fun _ => JsonParse.fail)) = some "web" := by
  constructor
  · exact (c2_kb_threshold "solve 1" { score := 0.4, payload := none } [] (Except.ok "")
      true true (Except.error "p") (Except.error "c") (fun _ => JsonParse.fail)
      (Except.error "c") (fun _ => JsonParse.fail) (by decide) rfl).1.mpr (by norm_num)
  · exact (c2_kb_threshold "solve 1" { score := 0.399999, payload := none } [] (Except.ok "")
      true true (Except.error "p") (Except.error "c") (fun _ => JsonParse.fail)
      (Except.error "c") (fun _ => JsonParse.fail) (by decide) rfl).2.mpr (by norm_num)

/-- Counterexample to C6: on the generation-failure fallback path of /ask the
returned steps and final answer are not passed through the sanitize guardrail:
a step and a final answer containing a banned topic leave the system
unchanged, while sanitizing them would replace them. -/
theorem c6_counterexample :
    answerSteps (ask_question "solve 1" (Except.error "down") (Except.error "down") true true
        (Except.error "p") (Except.error "c") (fun _ => JsonParse.fail)
        (some "exc") (Except.ok "raw") (fun _ => JsonParse.ok ["tell me a joke"] "a joke: ha"))
      = ["tell me a joke"]
    ∧ output_guardrail_text "tell me a joke" ≠ "tell me a joke"
    ∧ answerFinal (ask_question "solve 1" (Except.error "down") (Except.error "down") true true
        (Except.error "p") (Except.error "c") (fun _ => JsonParse.fail)
        (some "exc") (Except.ok "raw") (fun _ => JsonParse.ok ["tell me a joke"] "a joke: ha"))
      = "a joke: ha"
    ∧ output_guardrail_text "a joke: ha" ≠ "a joke: ha" :=
  ⟨by decide, by decide, by decide, by decide⟩

/-- C6 amended: on the normal return path of /ask the sanitize guardrail is
applied to the final answer and to every step; on the generation-failure
fallback path the regenerated steps are returned without sanitization. -/
theorem c6_amended (question_raw : String) (kb_call : Except String (List KbResult))
    (web_call : Except String String) (davail hsolver : Bool)
    (enhanced_call : Except String GenResult)
    (completion : Except String String) (parseJson : String → JsonParse)
    (completion2 : Except String String) (parseJson2 : String → JsonParse)
    (hq : input_guardrail (stripStr question_raw) = true) :
    (answerSteps (ask_question question_raw kb_call web_call davail hsolver enhanced_call
        completion parseJson none completion2 parseJson2)
      = ((ask_generation davail hsolver enhanced_call completion parseJson).steps).map
          output_guardrail_text
     ∧ answerFinal (ask_question question_raw kb_call web_call davail hsolver enhanced_call
        completion parseJson none completion2 parseJson2)
      = output_guardrail_text
          (ask_generation davail hsolver enhanced_call completion parseJson).final_answer)
    ∧ ∀ exc : String,
        answerSteps (ask_question question_raw kb_call web_call davail hsolver enhanced_call
            completion parseJson (some exc) completion2 parseJson2)
          = (generate_step_by_step_standard completion2 parseJson2).steps := by
  refine ⟨⟨?_, ?_⟩, ?_⟩ <;>
    simp [ask_question, hq, Bool.not_true, Bool.false_eq_true, if_false, answerSteps, answerFinal]

/-- Witness for C6 amended at a concrete input. -/
theorem c6_amended_witness :
    answerSteps (ask_question "solve 1" (Except.error "down") (Except.error "down") true true
        (Except.error "p") (Except.ok "hello") (fun _ => JsonParse.fail)
        none (Except.error "c") (fun _ => JsonParse.fail))
      = ((ask_generation true true (Except.error "p") (Except.ok "hello")
          (fun _ => JsonParse.fail)).steps).map output_guardrail_text :=
  ((c6_amended "solve 1" (Except.error "down") (Except.error "down") true true
      (Except.error "p") (Except.ok "hello") (fun _ => JsonParse.fail)
      (Except.error "c") (fun _ => JsonParse.fail) (by decide)).1).1
